import Mathlib

/-
Verification of the paywall pattern extraction and aggregation engine
(`src/backend/server.js`).  The CSS text-mining rules of
`extractPatternsFromCSS`, the per-document snapshot construction of
`extractPaywallPatterns`, the component-style scan of
`extractComponentStyles` / `extractSelectorStyles` and the aggregation of
`mergePaywallPatterns` (with its inner `mergeArray` helper) are embedded
shallowly: JavaScript regex scans become explicit character-list scanners
with the same backtracking behaviour, JS `Set`s become insertion-ordered
duplicate-free lists, JS objects become insertion-ordered association
lists, and JS numbers become rationals (every numeral handled by the
engine is a finite decimal, which `ℚ` represents exactly).
-/

namespace Paywall

set_option maxRecDepth 100000

/-- CSS text is modelled as a list of characters (`String.toList` of the
source text), so that the regex scanners can be written as structural
recursions the kernel can evaluate. -/
abbrev Str := List Char

/-- The apostrophe character (used inside CSS selector literals and by the
quote-stripping of the font-family rule). -/
def quoteChar : Char := Char.ofNat 39

/-- JS `\w`: ASCII letters, digits and underscore. -/
def isWordChar (c : Char) : Bool := c.isAlphanum || c = '_'

/-- JS `\s` for the whitespace the engine meets: space, tab, CR, LF. -/
def isSpaceChar (c : Char) : Bool := c.isWhitespace

/-- Hex digit, both cases (`[0-9a-fA-F]` of the colour regex). -/
def isHexDigit (c : Char) : Bool := c.isDigit || ('a' ≤ c && c ≤ 'f') || ('A' ≤ c && c ≤ 'F')

/-- Case-insensitive character comparison (the `i` regex flag). -/
def chCI (a b : Char) : Bool := a.toLower = b.toLower

/-- Match a literal pattern case-insensitively at the head of the text,
returning the rest on success. -/
def stripCI : Str → Str → Option Str
  | [], t => some t
  | _ :: _, [] => none
  | p :: ps, c :: cs => if chCI p c then stripCI ps cs else none

/-- Match a literal pattern case-sensitively at the head of the text
(the colour regex has no `i` flag). -/
def stripCS : Str → Str → Option Str
  | [], t => some t
  | _ :: _, [] => none
  | p :: ps, c :: cs => if p = c then stripCS ps cs else none

/-- Greedy `\s*`. -/
def dropWS (t : Str) : Str := t.dropWhile isSpaceChar

/-- Greedy run of decimal digits. -/
def takeDigits (t : Str) : Str := t.takeWhile Char.isDigit

/-- Rest after a greedy run of decimal digits. -/
def dropDigits (t : Str) : Str := t.dropWhile Char.isDigit

/-- Match `\d+(?:\.\d+)?` (greedy, with the regex backtracking that gives
the fractional part back when no digit follows the dot), returning the
matched numeral and the rest. -/
def numTok (t : Str) : Option (Str × Str) :=
  let ds := takeDigits t
  let r := dropDigits t
  if ds.isEmpty then none
  else
    match r with
    | '.' :: r2 =>
      let fs := takeDigits r2
      if fs.isEmpty then some (ds, r)
      else some (ds ++ '.' :: fs, dropDigits r2)
    | _ => some (ds, r)

/-- Match `-?\d+(?:\.\d+)?`. -/
def numTokSigned (t : Str) : Option (Str × Str) :=
  match t with
  | '-' :: r =>
    match numTok r with
    | some (n, rest) => some ('-' :: n, rest)
    | none => none
  | _ => numTok t

/-- Match `-?\d+` (the z-index rule: no fractional part). -/
def intTok (t : Str) : Option (Str × Str) :=
  match t with
  | '-' :: r =>
    let ds := takeDigits r
    if ds.isEmpty then none else some ('-' :: ds, dropDigits r)
  | _ =>
    let ds := takeDigits t
    if ds.isEmpty then none else some (ds, dropDigits t)

/-- Numeric value of a digit run. -/
def digitsVal (ds : Str) : Nat := ds.foldl (fun a c => a * 10 + (c.toNat - 48)) 0

/-- JS `Number(s)` restricted to the numeral shapes the engine produces
(optionally signed decimal numerals); every other string is `NaN`,
modelled as `none`. -/
def jsNumCore (s : Str) : Option ℚ :=
  let ds := takeDigits s
  let r := dropDigits s
  if ds.isEmpty then none
  else
    match r with
    | [] => some (digitsVal ds)
    | '.' :: fs =>
      let f := takeDigits fs
      if f.isEmpty || !(dropDigits fs).isEmpty then none
      else some (mkRat (digitsVal ds * 10 ^ f.length + digitsVal f) (10 ^ f.length))
    | _ => none

/-- Signed `Number` coercion (see `jsNumCore`). -/
def jsNum (s : Str) : Option ℚ :=
  match s with
  | '-' :: r => (jsNumCore r).map (fun q => -q)
  | _ => jsNumCore s

/-- Global (`g`-flag) regex scan: at each position try the matcher; on a
match emit its capture and resume after the consumed text, otherwise
advance one character.  The defensive `if` mirrors the JS rule that a
zero-width match advances `lastIndex` by one. -/
def scanAllF {α : Type} (m : Str → Option (α × Str)) : Nat → Str → List α
  | 0, _ => []
  | _, [] => []
  | fuel + 1, c :: cs =>
    match m (c :: cs) with
    | some (a, rest) =>
      if rest.length ≤ cs.length then a :: scanAllF m fuel rest
      else a :: scanAllF m fuel cs
    | none => scanAllF m fuel cs

/-- Entry point of the global scan; the fuel `t.length` is never
exhausted, since every step strictly shortens the text. -/
def scanAll {α : Type} (m : Str → Option (α × Str)) (t : Str) : List α :=
  scanAllF m t.length t

/-- JS `Set.add`: append if not already present (insertion order kept). -/
def dedupAdd (l : List Str) (x : Str) : List Str := if x ∈ l then l else l ++ [x]

/-- Pour a capture list into a JS `Set` (insertion-ordered, duplicate-free). -/
def setOf (caps : List Str) : List Str := caps.foldl dedupAdd []

/-- JS object property assignment `o[k] = v`: overwrite in place if the
key exists (keeping its original position), else append. -/
def upsertList {β : Type} (m : List (Str × β)) (k : Str) (v : β) : List (Str × β) :=
  match m with
  | [] => [(k, v)]
  | (k0, v0) :: rest => if k0 = k then (k0, v) :: rest else (k0, v0) :: upsertList rest k v

/-- JS `Object.assign(tgt, src)`: assign every key of `src` in order. -/
def objAssign {β : Type} (tgt src : List (Str × β)) : List (Str × β) :=
  src.foldl (fun acc kv => upsertList acc kv.1 kv.2) tgt

/-- First value bound to a key in an association list. -/
def lookupKey {β : Type} (k : Str) : List (Str × β) → Option β
  | [] => none
  | (k0, v0) :: rest => if k0 = k then some v0 else lookupKey k rest

/-- JS `String.prototype.trim`. -/
def trimStr (s : Str) : Str := (((s.dropWhile isSpaceChar).reverse).dropWhile isSpaceChar).reverse

/-- JS `String.prototype.includes` (substring test). -/
def hasSub (sub : Str) : Str → Bool
  | [] => sub.isEmpty
  | c :: cs => (stripCS sub (c :: cs)).isSome || hasSub sub cs

/-- JS `String.prototype.split(",")`, keeping empty segments. -/
def splitComma : Str → List Str
  | [] => [[]]
  | c :: cs =>
    if c = ',' then [] :: splitComma cs
    else
      match splitComma cs with
      | seg :: rest => (c :: seg) :: rest
      | [] => [[c]]

/-! ### Literal fragments of the regex rules -/

def litFontFamily : Str := "font-family".toList
def litFontSize : Str := "font-size".toList
def litFontWeight : Str := "font-weight".toList
def litLineHeight : Str := "line-height".toList
def litLetterSpacing : Str := "letter-spacing".toList
def litPadding : Str := "padding".toList
def litMargin : Str := "margin".toList
def litBorderRadius : Str := "border-radius".toList
def litBoxShadow : Str := "box-shadow".toList
def litBorder : Str := "border".toList
def litTransition : Str := "transition".toList
def litTransform : Str := "transform".toList
def litOpacity : Str := "opacity".toList
def litBackground : Str := "background".toList
def litBackgroundImage : Str := "background-image".toList
def litLinearGradient : Str := "linear-gradient".toList
def litRadialGradient : Str := "radial-gradient".toList
def litConicGradient : Str := "conic-gradient".toList
def litZIndex : Str := "z-index".toList
def litGap : Str := "gap".toList
def litWidth : Str := "width".toList
def litHeight : Str := "height".toList
def litDisplay : Str := "display".toList
def litPosition : Str := "position".toList
def litTextTransform : Str := "text-transform".toList
def litTextDecoration : Str := "text-decoration".toList
def litMedia : Str := "@media".toList
def litScreen : Str := "screen".toList
def litPrint : Str := "print".toList
def litMinWidth : Str := "min-width".toList
def litMaxWidth : Str := "max-width".toList
def litAnimation : Str := "animation".toList
def litKeyframes : Str := "@keyframes".toList
def litNormal : Str := "normal".toList
def litBold : Str := "bold".toList
def litBolder : Str := "bolder".toList
def litLighter : Str := "lighter".toList
def lit400 : Str := "400".toList
def lit700 : Str := "700".toList
def litPx : Str := "px".toList
def litRem : Str := "rem".toList
def litEm : Str := "em".toList
def litPct : Str := "%".toList
def litVw : Str := "vw".toList
def litVh : Str := "vh".toList
def litTop : Str := "-top".toList
def litRight : Str := "-right".toList
def litBottom : Str := "-bottom".toList
def litLeft : Str := "-left".toList
def litWidthSuffix : Str := "-width".toList
def litRgbOpen : Str := "rgb(".toList
def litRgbaOpen : Str := "rgba(".toList
def litHslOpen : Str := "hsl(".toList
def litHslaOpen : Str := "hsla(".toList
def litTransparent : Str := "transparent".toList
def litCurrentColor : Str := "currentColor".toList
def litFlexDirection : Str := "flex-direction".toList
def litJustifyContent : Str := "justify-content".toList
def litAlignItems : Str := "align-items".toList
def litAlignSelf : Str := "align-self".toList
def litFlexWrap : Str := "flex-wrap".toList
def litFlexGrow : Str := "flex-grow".toList
def litFlexShrink : Str := "flex-shrink".toList
def litGridTemplateColumns : Str := "grid-template-columns".toList
def litGridTemplateRows : Str := "grid-template-rows".toList
def litGridColumn : Str := "grid-column".toList
def litGridRow : Str := "grid-row".toList
def litGridArea : Str := "grid-area".toList

/-! ### Shared regex building blocks -/

/-- Property-head part of a rule of shape
`(?:P1|P2|…)(?:S1|S2|…)?:` — ordered alternation of property literals,
an optional ordered alternation of suffixes, then a literal colon, with
the regex backtracking between a matched suffix and the empty suffix.
Returns the rest of the text after the colon. -/
def headColon (props sufs : List Str) (t : Str) : Option Str :=
  props.findSome? (fun p =>
    match stripCI p t with
    | none => none
    | some r1 =>
      let viaSuf := sufs.findSome? (fun s0 =>
        match stripCI s0 r1 with
        | none => none
        | some r2 =>
          match r2 with
          | ':' :: r3 => some r3
          | _ => none)
      match viaSuf with
      | some r3 => some r3
      | none =>
        match r1 with
        | ':' :: r3 => some r3
        | _ => none)

/-- Optional unit `(?:U1|U2|…)?` right after a numeral: consumed when one
of the alternatives matches (tried in order), not captured. -/
def dropUnitOf (units : List Str) (t : Str) : Str :=
  match units.findSome? (fun u => stripCI u t) with
  | some r => r
  | none => t

/-- Value part `\s*([^;]+)`, including the regex backtracking that hands
the last whitespace character to the capture when nothing else remains
before the semicolon.  Returns the capture and the rest (at the `;` or at
the end of the text). -/
def valSemi (t : Str) : Option (Str × Str) :=
  let ws := t.takeWhile isSpaceChar
  let r := t.dropWhile isSpaceChar
  let cap := r.takeWhile (fun c => !(c = ';'))
  if cap.isEmpty then
    match ws.getLast? with
    | some c => some ([c], r)
    | none => none
  else some (cap, r.dropWhile (fun c => !(c = ';')))

/-- Value part `\s*(\w+)`. -/
def valWord (t : Str) : Option (Str × Str) :=
  let r := dropWS t
  let cap := r.takeWhile isWordChar
  if cap.isEmpty then none else some (cap, r.dropWhile isWordChar)

/-- Value part `\s*(\d+(?:\.\d+)?)(?:U1|…)?` (optionally signed). -/
def valNum (sign : Bool) (units : List Str) (t : Str) : Option (Str × Str) :=
  let r := dropWS t
  match (if sign then numTokSigned r else numTok r) with
  | some (n, rest) => some (n, dropUnitOf units rest)
  | none => none

/-- Numeric property rule `PROPS(?:SUFS)?:\s*(NUM)(?:UNITS)?`. -/
def numPropTry (props sufs units : List Str) (sign : Bool) (t : Str) : Option (Str × Str) :=
  match headColon props sufs t with
  | none => none
  | some r => valNum sign units r

/-- Up-to-semicolon property rule `PROPS:\s*([^;]+)` capturing group 1. -/
def semiPropTry (props : List Str) (t : Str) : Option (Str × Str) :=
  match headColon props [] t with
  | none => none
  | some r => valSemi r

/-- Word property rule `PROPS:\s*(\w+)`. -/
def wordPropTry (props : List Str) (t : Str) : Option (Str × Str) :=
  match headColon props [] t with
  | none => none
  | some r => valWord r

/-- Whole-match (`match[0]`) property rule `PROPS:\s*([^;]+)`, capture
trimmed (used by the flex- and grid-property rules). -/
def wholePropTry (props : List Str) (t : Str) : Option (Str × Str) :=
  match headColon props [] t with
  | none => none
  | some r =>
    match valSemi r with
    | none => none
    | some (_, rest) => some (trimStr (t.take (t.length - rest.length)), rest)

/-! ### The colour rule (case-sensitive: its regex has no `i` flag) -/

/-- One functional colour alternative `kw([^)]+)` matched case-sensitively,
e.g. `rgb(…)`; the capture is the whole token. -/
def funcColorTry (kw : Str) (t : Str) : Option (Str × Str) :=
  match stripCS kw t with
  | none => none
  | some r =>
    let body := r.takeWhile (fun c => !(c = ')'))
    if body.isEmpty then none
    else
      match r.drop body.length with
      | ')' :: r2 => some (kw ++ body ++ [')'], r2)
      | _ => none

/-- `(#[0-9a-fA-F]{3,8}|rgb\([^)]+\)|rgba\([^)]+\)|hsl\([^)]+\)|hsla\([^)]+\)|transparent|currentColor)`. -/
def colorTry (t : Str) : Option (Str × Str) :=
  match t with
  | '#' :: r =>
    let hs := r.takeWhile isHexDigit
    if 3 ≤ hs.length then
      let taken := hs.take 8
      some ('#' :: taken, r.drop taken.length)
    else none
  | _ =>
    match [litRgbOpen, litRgbaOpen, litHslOpen, litHslaOpen].findSome?
        (fun kw => funcColorTry kw t) with
    | some res => some res
    | none =>
      match stripCS litTransparent t with
      | some r => some (litTransparent, r)
      | none =>
        match stripCS litCurrentColor t with
        | some r => some (litCurrentColor, r)
        | none => none

/-! ### The font-weight rule -/

/-- The value alternation `(\d+|normal|bold|bolder|lighter)` of the
font-weight rule: alternatives tried in the order written, so the text
`bolder` is matched by the `bold` alternative.  The capture is the text
as matched (original case). -/
def fwAlt (t : Str) : Option (Str × Str) :=
  let ds := takeDigits t
  if !ds.isEmpty then some (ds, dropDigits t)
  else
    [litNormal, litBold, litBolder, litLighter].findSome? (fun kw =>
      match stripCI kw t with
      | some r => some (t.take kw.length, r)
      | none => none)

/-- `font-weight:\s*(\d+|normal|bold|bolder|lighter)` (flags `gi`). -/
def fontWeightTry (t : Str) : Option (Str × Str) :=
  match headColon [litFontWeight] [] t with
  | none => none
  | some r => fwAlt (dropWS r)

/-! ### The border rule -/

/-- Continuation `:` after an optional alternation, with backtracking:
each alternative is tried with the continuation, then the empty match. -/
def optThen (alts : List Str) (k : Str → Option Str) (t : Str) : Option Str :=
  match alts.findSome? (fun a =>
      match stripCI a t with
      | none => none
      | some r => k r) with
  | some res => some res
  | none => k t

/-- Literal colon continuation. -/
def colonAfter (t : Str) : Option Str :=
  match t with
  | ':' :: r => some r
  | _ => none

/-- Tail `\s+(\w+)\s+([^;]+)` of the border rule, with the backtracking
that hands the last whitespace character of the second `\s+` run to the
final capture when the value would otherwise be empty. -/
def borderTail (t : Str) : Option (Str × Str × Str) :=
  let ws1 := t.takeWhile isSpaceChar
  if ws1.isEmpty then none
  else
    let r1 := t.dropWhile isSpaceChar
    let w := r1.takeWhile isWordChar
    if w.isEmpty then none
    else
      let r2 := r1.dropWhile isWordChar
      let ws2 := r2.takeWhile isSpaceChar
      if ws2.isEmpty then none
      else
        let r3 := r2.dropWhile isSpaceChar
        let v := r3.takeWhile (fun c => !(c = ';'))
        if v.isEmpty then
          if 2 ≤ ws2.length then
            match ws2.getLast? with
            | some c => some (w, [c], r3)
            | none => none
          else none
        else some (w, v, r3.dropWhile (fun c => !(c = ';')))

/-- `border(?:-top|-right|-bottom|-left)?(?:-width)?:\s*(\d+(?:\.\d+)?(?:px|rem|em)?)\s+(\w+)\s+([^;]+)`;
returns the three captures (group 1 spans numeral plus matched unit). -/
def borderTry (t : Str) : Option ((Str × Str × Str) × Str) :=
  match stripCI litBorder t with
  | none => none
  | some r0 =>
    match optThen [litTop, litRight, litBottom, litLeft]
        (optThen [litWidthSuffix] colonAfter) r0 with
    | none => none
    | some r1 =>
      let r2 := dropWS r1
      match numTok r2 with
      | none => none
      | some (n, r3) =>
        let unitTry := [litPx, litRem, litEm].findSome? (fun u =>
          match stripCI u r3 with
          | none => none
          | some r4 =>
            match borderTail r4 with
            | some (m2, m3, rest) => some ((n ++ r3.take u.length, m2, m3), rest)
            | none => none)
        match unitTry with
        | some res => some res
        | none =>
          match borderTail r3 with
          | some (m2, m3, rest) => some ((n, m2, m3), rest)
          | none => none

/-! ### The gradient rule -/

/-- `(?:background|background-image):\s*(linear-gradient|radial-gradient|conic-gradient)\([^)]+\)`,
capturing the trimmed whole match (`match[0].trim()`). -/
def gradientTry (t : Str) : Option (Str × Str) :=
  match headColon [litBackground, litBackgroundImage] [] t with
  | none => none
  | some r =>
    let r2 := dropWS r
    [litLinearGradient, litRadialGradient, litConicGradient].findSome? (fun kw =>
      match stripCI kw r2 with
      | none => none
      | some r3 =>
        match r3 with
        | '(' :: r4 =>
          let body := r4.takeWhile (fun c => !(c = ')'))
          if body.isEmpty then none
          else
            match r4.drop body.length with
            | ')' :: r5 => some (trimStr (t.take (t.length - r5.length)), r5)
            | _ => none
        | _ => none)

/-! ### The media-query breakpoint rule -/

/-- `(?:min-width|max-width):\s*(\d+)(?:px|em|rem)` at the current
position; the unit is mandatory. -/
def mmTry (t : Str) : Option (Str × Str) :=
  match [litMinWidth, litMaxWidth].findSome? (fun kw => stripCI kw t) with
  | none => none
  | some r =>
    match r with
    | ':' :: r1 =>
      let r2 := dropWS r1
      let ds := takeDigits r2
      if ds.isEmpty then none
      else
        let r3 := dropDigits r2
        match [litPx, litEm, litRem].findSome? (fun u => stripCI u r3) with
        | some r4 => some (ds, r4)
        | none => none
    | _ => none

/-- The lazy `.*?` walk: try the min/max continuation at each position,
advancing one character at a time; `.` never crosses a newline. -/
def lazyScanMM : Str → Option (Str × Str)
  | [] => none
  | c :: cs =>
    match mmTry (c :: cs) with
    | some res => some res
    | none => if c = '\n' then none else lazyScanMM cs

/-- The group `(?:\([^)]+\)|screen|print)` after `@media\s+`. -/
def mediaCondTry (t : Str) : Option Str :=
  match t with
  | '(' :: r =>
    let body := r.takeWhile (fun c => !(c = ')'))
    if body.isEmpty then none
    else
      match r.drop body.length with
      | ')' :: r2 => some r2
      | _ => none
  | _ =>
    match stripCI litScreen t with
    | some r => some r
    | none => stripCI litPrint t

/-- `@media\s+(?:\([^)]+\)|screen|print).*?(?:min-width|max-width):\s*(\d+)(?:px|em|rem)`. -/
def breakpointTry (t : Str) : Option (Str × Str) :=
  match stripCI litMedia t with
  | none => none
  | some r =>
    let ws := r.takeWhile isSpaceChar
    if ws.isEmpty then none
    else
      match mediaCondTry (r.dropWhile isSpaceChar) with
      | none => none
      | some r2 => lazyScanMM r2

/-! ### The animation and custom-property rules -/

/-- `(?:animation|@keyframes)\s+(\w+)` — a whitespace run (not a colon)
must separate the keyword from the captured name. -/
def animationTry (t : Str) : Option (Str × Str) :=
  [litAnimation, litKeyframes].findSome? (fun kw =>
    match stripCI kw t with
    | none => none
    | some r =>
      let ws := r.takeWhile isSpaceChar
      if ws.isEmpty then none
      else
        let r1 := r.dropWhile isSpaceChar
        let w := r1.takeWhile isWordChar
        if w.isEmpty then none else some (w, r1.dropWhile isWordChar))

/-- `--[\w-]+:\s*([^;]+)`: a CSS custom property; yields the variable
name (`match[0].split(":")[0].trim()`) and the trimmed value. -/
def cssVarTry (t : Str) : Option ((Str × Str) × Str) :=
  match t with
  | '-' :: '-' :: r =>
    let nm := r.takeWhile (fun c => isWordChar c || c = '-')
    if nm.isEmpty then none
    else
      match r.drop nm.length with
      | ':' :: r2 =>
        match valSemi r2 with
        | none => none
        | some (v, rest) => some (('-' :: '-' :: nm, trimStr v), rest)
      | _ => none
  | _ => none

/-- Integer property rule `PROPS:\s*(-?\d+)` (the z-index rule). -/
def intPropTry (props : List Str) (t : Str) : Option (Str × Str) :=
  match headColon props [] t with
  | none => none
  | some r => intTok (dropWS r)

/-- Quote stripping of the font-family rule (`replace(/['"]/g, "")`). -/
def stripQuotes (s : Str) : Str := s.filter (fun c => !(c = quoteChar || c = '"'))

/-! ### Per-category capture lists of `extractPatternsFromCSS`
(each function lists, in order, the values one rule adds to its
category's `Set` while scanning one CSS text) -/

def capsColors (css : Str) : List Str := (scanAll colorTry css).map trimStr

def capsFonts (css : Str) : List Str :=
  (scanAll (semiPropTry [litFontFamily]) css).flatMap
    (fun cap => (splitComma cap).map (fun f => stripQuotes (trimStr f)))

def capsFontSizes (css : Str) : List Str :=
  scanAll (numPropTry [litFontSize] [] [litPx, litRem, litEm] false) css

def capsFontWeights (css : Str) : List Str :=
  (scanAll fontWeightTry css).filterMap (fun w =>
    if w = litNormal then some lit400
    else if w = litBold then some lit700
    else if (jsNum w).isSome then some w
    else none)

def capsLineHeights (css : Str) : List Str :=
  scanAll (numPropTry [litLineHeight] [] [litPx, litRem, litEm, litPct] false) css

def capsLetterSpacing (css : Str) : List Str :=
  scanAll (numPropTry [litLetterSpacing] [] [litPx, litEm] true) css

def capsSpacing (css : Str) : List Str :=
  scanAll (numPropTry [litPadding, litMargin] [litTop, litRight, litBottom, litLeft]
    [litPx, litRem, litEm, litPct] false) css

def capsBorderRadius (css : Str) : List Str :=
  scanAll (numPropTry [litBorderRadius] [] [litPx, litRem, litEm, litPct] false) css

def capsShadows (css : Str) : List Str :=
  (scanAll (semiPropTry [litBoxShadow]) css).map trimStr

def capsBorders (css : Str) : List Str :=
  (scanAll borderTry css).map
    (fun m => m.1 ++ litPx ++ [' '] ++ m.2.1 ++ [' '] ++ trimStr m.2.2)

def capsTransitions (css : Str) : List Str :=
  (scanAll (semiPropTry [litTransition]) css).map trimStr

def capsTransforms (css : Str) : List Str :=
  (scanAll (semiPropTry [litTransform]) css).map trimStr

def capsOpacities (css : Str) : List Str :=
  scanAll (numPropTry [litOpacity] [] [] false) css

def capsGradients (css : Str) : List Str := scanAll gradientTry css

def capsZIndex (css : Str) : List Str := scanAll (intPropTry [litZIndex]) css

def capsGaps (css : Str) : List Str :=
  scanAll (numPropTry [litGap] [] [litPx, litRem, litEm] false) css

def capsWidths (css : Str) : List Str :=
  (scanAll (numPropTry [litWidth] [] [litPx, litRem, litEm, litPct] false) css).filter
    (fun m => !(hasSub litPct m) && !(hasSub litVw m))

def capsHeights (css : Str) : List Str :=
  (scanAll (numPropTry [litHeight] [] [litPx, litRem, litEm, litPct] false) css).filter
    (fun m => !(hasSub litPct m) && !(hasSub litVh m))

def capsDisplayTypes (css : Str) : List Str := scanAll (wordPropTry [litDisplay]) css

def capsFlexProperties (css : Str) : List Str :=
  scanAll (wholePropTry [litFlexDirection, litJustifyContent, litAlignItems,
    litAlignSelf, litFlexWrap, litFlexGrow, litFlexShrink]) css

def capsGridProperties (css : Str) : List Str :=
  scanAll (wholePropTry [litGridTemplateColumns, litGridTemplateRows,
    litGridColumn, litGridRow, litGridArea]) css

def capsPositions (css : Str) : List Str := scanAll (wordPropTry [litPosition]) css

def capsTextTransforms (css : Str) : List Str :=
  scanAll (wordPropTry [litTextTransform]) css

def capsTextDecorations (css : Str) : List Str :=
  (scanAll (semiPropTry [litTextDecoration]) css).map trimStr

def capsBreakpoints (css : Str) : List Str := scanAll breakpointTry css

def capsAnimations (css : Str) : List Str := scanAll animationTry css

def capsCssVars (css : Str) : List (Str × Str) := scanAll cssVarTry css

/-! ### Document model and layout selectors -/

def litStyleTag : Str := "style".toList
def litButton : Str := "button".toList
def litBtn : Str := "btn".toList
def litCard : Str := "card".toList
def litContainer : Str := "container".toList
def litInput : Str := "input".toList
def litModal : Str := "modal".toList
def litDialog : Str := "dialog".toList
def litButtons : Str := "buttons".toList
def litCards : Str := "cards".toList
def litInputs : Str := "inputs".toList
def litColor : Str := "color".toList

/-- One element of the parsed document: tag name (lower case), the raw
`class` attribute (empty when absent), the `style` attribute when
present, and the element's inner text (used for style tags). -/
structure Elem where
  tag : Str
  classAttr : Str
  styleAttr : Option Str
  inner : Str

/-- A parsed document, its elements in document order. -/
structure Doc where
  elements : List Elem

/-- Contents of every style tag, in order (`$("style").each`). -/
def styleBlocksOf (d : Doc) : List Str :=
  (d.elements.filter (fun e => e.tag = litStyleTag)).map Elem.inner

/-- Every inline style attribute value, in order (`$("[style]").each`). -/
def inlineStylesOf (d : Doc) : List Str := d.elements.filterMap Elem.styleAttr

/-- All CSS sources fed to the rules: style-tag contents first, then the
inline style attributes. -/
def cssSourcesOf (d : Doc) : List Str := styleBlocksOf d ++ inlineStylesOf d

/-- Class words of a `class` attribute (for `.name` selectors). -/
def classWords (s : Str) : List Str :=
  (List.splitOnP isSpaceChar s).filter (fun w => !w.isEmpty)

/-- `button, .button, [class*='btn']`. -/
def isButtonElem (e : Elem) : Bool :=
  e.tag = litButton || litButton ∈ classWords e.classAttr || hasSub litBtn e.classAttr

/-- `.card, [class*='card']`. -/
def isCardElem (e : Elem) : Bool :=
  litCard ∈ classWords e.classAttr || hasSub litCard e.classAttr

/-- `.container, [class*='container']`. -/
def isContainerElem (e : Elem) : Bool :=
  litContainer ∈ classWords e.classAttr || hasSub litContainer e.classAttr

/-- `input, .input, [class*='input']`. -/
def isInputElem (e : Elem) : Bool :=
  e.tag = litInput || litInput ∈ classWords e.classAttr || hasSub litInput e.classAttr

/-- `.modal, [class*='modal'], [class*='dialog']`. -/
def isModalElem (e : Elem) : Bool :=
  litModal ∈ classWords e.classAttr || hasSub litModal e.classAttr
    || hasSub litDialog e.classAttr

/-- The `layouts` record of a snapshot (occurrence counts of the five
heuristic selector groups). -/
structure LayoutCounts where
  buttons : Nat
  cards : Nat
  containers : Nat
  inputs : Nat
  modals : Nat
deriving DecidableEq, Repr

/-- The element counts of `extractPaywallPatterns`'s layout section. -/
def layoutCountsOf (d : Doc) : LayoutCounts where
  buttons := (d.elements.filter isButtonElem).length
  cards := (d.elements.filter isCardElem).length
  containers := (d.elements.filter isContainerElem).length
  inputs := (d.elements.filter isInputElem).length
  modals := (d.elements.filter isModalElem).length

/-! ### `extractSelectorStyles` / `extractComponentStyles` -/

/-- Opening and closing brace characters. -/
def braceOpen : Char := Char.ofNat 123

/-- Closing brace. -/
def braceClose : Char := Char.ofNat 125

/-- The selector literals handed to `extractSelectorStyles`; after the
source's regex-escaping they match verbatim (case-insensitively). -/
def btnSelLit : Str :=
  "button, .button, [class*=".toList ++ [quoteChar] ++ litBtn ++ [quoteChar, ']']

/-- Card selector literal. -/
def cardSelLit : Str :=
  ".card, [class*=".toList ++ [quoteChar] ++ litCard ++ [quoteChar, ']']

/-- Input selector literal. -/
def inputSelLit : Str :=
  "input, .input, [class*=".toList ++ [quoteChar] ++ litInput ++ [quoteChar, ']']

/-- Allow-listed properties per archetype. -/
def btnProps : List Str :=
  [litBackground, litColor, litPadding, litBorderRadius, litFontWeight,
    litFontSize, litBorder, litBoxShadow, litTransition]

/-- Card property allow-list. -/
def cardProps : List Str :=
  [litBackground, litBorderRadius, litBoxShadow, litPadding, litBorder]

/-- Input property allow-list. -/
def inputProps : List Str :=
  [litBorder, litBorderRadius, litPadding, litFontSize, litBackground]

/-- `(SELECTOR)[^{]*\{([^}]+)\}` (flags `gi`, the selector text escaped to
a literal): capture the rule-block body. -/
def blockTry (sel : Str) (t : Str) : Option (Str × Str) :=
  match stripCI sel t with
  | none => none
  | some r1 =>
    let gap := r1.takeWhile (fun c => !(c = braceOpen))
    match r1.drop gap.length with
    | c :: r2 =>
      if c = braceOpen then
        let body := r2.takeWhile (fun d0 => !(d0 = braceClose))
        if body.isEmpty then none
        else
          match r2.drop body.length with
          | c2 :: r3 => if c2 = braceClose then some (body, r3) else none
          | [] => none
      else none
    | [] => none

/-- First match of `PROP:\s*([^;]+)` in a block body (`RegExp.exec` with a
fresh regex finds only the first), trimmed. -/
def firstPropIn (prop : Str) : Str → Option Str
  | [] => none
  | c :: cs =>
    match semiPropTry [prop] (c :: cs) with
    | some (v, _) => some (trimStr v)
    | none => firstPropIn prop cs

/-- Add a value to the per-property `Set` of the styles object. -/
def upsertSetKey (m : List (Str × List Str)) (k : Str) (v : Str) : List (Str × List Str) :=
  match lookupKey k m with
  | some s => upsertList m k (dedupAdd s v)
  | none => m ++ [(k, [v])]

/-- `extractSelectorStyles($, selector, properties)` over the first style
tag's text: for every rule block whose selector text contains the literal
selector, record the first occurrence of each allow-listed property, then
cap every property's value list at 5. -/
def extractSelectorStyles (cssText sel : Str) (props : List Str) :
    List (Str × List Str) :=
  let blocks := scanAll (blockTry sel) cssText
  let styles := blocks.foldl (fun acc body =>
    props.foldl (fun acc2 prop =>
      match firstPropIn prop body with
      | some v => upsertSetKey acc2 prop v
      | none => acc2) acc) ([] : List (Str × List Str))
  styles.map (fun kv => (kv.1, kv.2.take 5))

/-- `extractComponentStyles`: the three archetypes, each keyed only when
nonempty.  `$("style").html()` yields the FIRST style tag's text (or the
empty string when there is none). -/
def extractComponentStyles (cssTextFirst : Str) :
    List (Str × List (Str × List Str)) :=
  let buttons := extractSelectorStyles cssTextFirst btnSelLit btnProps
  let cards := extractSelectorStyles cssTextFirst cardSelLit cardProps
  let inputs := extractSelectorStyles cssTextFirst inputSelLit inputProps
  (if buttons.isEmpty then [] else [(litButtons, buttons)])
    ++ (if cards.isEmpty then [] else [(litCards, cards)])
    ++ (if inputs.isEmpty then [] else [(litInputs, inputs)])

/-! ### The per-document snapshot -/

/-- The snapshot returned by `extractPaywallPatterns`. -/
structure Snapshot where
  colors : List Str
  fonts : List Str
  fontSizes : List ℚ
  fontWeights : List ℚ
  lineHeights : List ℚ
  letterSpacing : List ℚ
  spacing : List ℚ
  borderRadius : List ℚ
  shadows : List Str
  borders : List Str
  transitions : List Str
  transforms : List Str
  opacities : List ℚ
  gradients : List Str
  zIndex : List ℚ
  gaps : List ℚ
  widths : List ℚ
  heights : List ℚ
  displayTypes : List Str
  flexProperties : List Str
  gridProperties : List Str
  positions : List Str
  textTransforms : List Str
  textDecorations : List Str
  breakpoints : List ℚ
  animations : List Str
  layouts : LayoutCounts
  commonStyles : Option (List (Str × Str))
  componentStyles : List (Str × List (Str × List Str))

/-- JS `Array.prototype.sort((a, b) => a - b)` on a list of numbers. -/
def sortQ (l : List ℚ) : List ℚ := l.insertionSort (fun a b => a ≤ b)

/-- Numeric snapshot category: `Array.from(set).map(Number).filter(n =>
!isNaN(n) && PRED).sort((a,b) => a-b).slice(0, CAP)`. -/
def numSnap (caps : List Str) (pred : ℚ → Bool) (cap : Nat) : List ℚ :=
  (sortQ ((caps.filterMap jsNum).filter pred)).take cap

/-- String snapshot category: `Array.from(set).slice(0, CAP)`. -/
def strSnap (caps : List Str) (cap : Nat) : List Str := caps.take cap

/-- Collect one category's `Set` across all CSS sources of a document. -/
def catSet (rule : Str → List Str) (srcs : List Str) : List Str :=
  setOf (srcs.flatMap rule)

/-- `extractPaywallPatterns(htmlContent)`. -/
def extractPaywallPatterns (d : Doc) : Snapshot :=
  let srcs := cssSourcesOf d
  let vars := (srcs.flatMap capsCssVars).foldl
    (fun acc kv => upsertList acc kv.1 kv.2) ([] : List (Str × Str))
  { colors := strSnap (catSet capsColors srcs) 30
    fonts := strSnap (catSet capsFonts srcs) 15
    fontSizes := numSnap (catSet capsFontSizes srcs) (fun n => 0 < n) 20
    fontWeights := numSnap (catSet capsFontWeights srcs) (fun _ => true) 10
    lineHeights := numSnap (catSet capsLineHeights srcs) (fun n => 0 < n) 15
    letterSpacing := numSnap (catSet capsLetterSpacing srcs) (fun _ => true) 10
    spacing := numSnap (catSet capsSpacing srcs) (fun _ => true) 25
    borderRadius := numSnap (catSet capsBorderRadius srcs) (fun _ => true) 15
    shadows := strSnap (catSet capsShadows srcs) 15
    borders := strSnap (catSet capsBorders srcs) 15
    transitions := strSnap (catSet capsTransitions srcs) 15
    transforms := strSnap (catSet capsTransforms srcs) 10
    opacities := numSnap (catSet capsOpacities srcs) (fun n => 0 ≤ n && n ≤ 1) 10
    gradients := strSnap (catSet capsGradients srcs) 10
    zIndex := numSnap (catSet capsZIndex srcs) (fun _ => true) 10
    gaps := numSnap (catSet capsGaps srcs) (fun _ => true) 15
    widths := numSnap (catSet capsWidths srcs) (fun _ => true) 15
    heights := numSnap (catSet capsHeights srcs) (fun _ => true) 15
    displayTypes := strSnap (catSet capsDisplayTypes srcs) 10
    flexProperties := strSnap (catSet capsFlexProperties srcs) 15
    gridProperties := strSnap (catSet capsGridProperties srcs) 10
    positions := strSnap (catSet capsPositions srcs) 5
    textTransforms := strSnap (catSet capsTextTransforms srcs) 5
    textDecorations := strSnap (catSet capsTextDecorations srcs) 5
    breakpoints := numSnap (catSet capsBreakpoints srcs) (fun _ => true) 10
    animations := strSnap (catSet capsAnimations srcs) 10
    layouts := layoutCountsOf d
    commonStyles := if vars.isEmpty then none else some vars
    componentStyles := extractComponentStyles ((styleBlocksOf d).headD []) }

/-! ### The aggregate profile and `mergePaywallPatterns` -/

/-- The process-wide `paywallPatterns` aggregate. -/
structure Profile where
  colors : List Str
  fonts : List Str
  fontSizes : List ℚ
  fontWeights : List ℚ
  lineHeights : List ℚ
  letterSpacing : List ℚ
  spacing : List ℚ
  borderRadius : List ℚ
  shadows : List Str
  borders : List Str
  transitions : List Str
  transforms : List Str
  opacities : List ℚ
  gradients : List Str
  zIndex : List ℚ
  gaps : List ℚ
  widths : List ℚ
  heights : List ℚ
  displayTypes : List Str
  flexProperties : List Str
  gridProperties : List Str
  positions : List Str
  textTransforms : List Str
  textDecorations : List Str
  breakpoints : List ℚ
  animations : List Str
  layouts : List LayoutCounts
  commonStyles : Option (List (Str × Str))
  componentStyles : List (Str × List (Str × List Str))
  count : Nat

/-- Exact rational subtraction written through `Rat.divInt` (so that the
kernel can evaluate it on literals); `subQ_eq` proves it is plain
subtraction. -/
def subQ (a b : ℚ) : ℚ := Rat.divInt (a.num * b.den - b.num * a.den) (a.den * b.den)

/-- `Math.abs(t - item) < tolerance` as a boolean the kernel can
evaluate; `withinTol_iff` relates it to the mathematical statement. -/
def withinTol (e item tol : ℚ) : Bool := decide (|subQ e item| < tol)

/-- One `source.forEach` step of `mergeArray` in the numeric (tolerance)
branch: `target.find(t => Math.abs(t - item) < tolerance)` returns the
found ELEMENT, and `if (!existing)` pushes also when that element is the
falsy number `0`. -/
def pushTol (target : List ℚ) (tol item : ℚ) : List ℚ :=
  match target.find? (fun e => withinTol e item tol) with
  | some e => if e = 0 then target ++ [item] else target
  | none => target ++ [item]

/-- The whole `source.forEach` loop of `mergeArray` (numeric branch). -/
def pushAllTol (target source : List ℚ) (tol : ℚ) : List ℚ :=
  source.foldl (fun acc it => pushTol acc tol it) target

/-- `mergeArray(target, source, limit, tolerance)` for a numeric category
(a tolerance is always passed and the values are numbers): push the
tolerance-missed values, then — when the result is nonempty, so its head
is a number — sort ascending and cap. -/
def mergeArrayNum (target source : List ℚ) (limit : Nat) (tol : ℚ) : List ℚ :=
  match pushAllTol target source tol with
  | [] => []
  | t => (sortQ t).take limit

/-- `mergeArray(target, source, limit)` for a string category: exact-match
dedup (`target.includes`), then cap without sorting. -/
def mergeArrayStr (target source : List Str) (limit : Nat) : List Str :=
  (source.foldl (fun acc it => if it ∈ acc then acc else acc ++ [it]) target).take limit

/-- The `layouts` history: push the snapshot record and keep the last 50. -/
def pushLayouts (hist : List LayoutCounts) (l : LayoutCounts) : List LayoutCounts :=
  let h2 := hist ++ [l]
  if 50 < h2.length then h2.drop (h2.length - 50) else h2

/-- `Object.assign(paywallPatterns.commonStyles, newPatterns.commonStyles)`:
the only key ever present is `cssVariables`, whose whole map is replaced
when the snapshot carries one. -/
def mergeCommon (tgt src : Option (List (Str × Str))) : Option (List (Str × Str)) :=
  match src with
  | some m => some m
  | none => tgt

/-- The nested `componentStyles` merge: ensure the component key exists,
then `Object.assign` the snapshot's per-property map over it (property
lists are REPLACED key by key, not united). -/
def mergeComponentStyles (tgt src : List (Str × List (Str × List Str))) :
    List (Str × List (Str × List Str)) :=
  src.foldl (fun acc kv =>
    upsertList acc kv.1 (objAssign ((lookupKey kv.1 acc).getD []) kv.2)) tgt

/-- `mergePaywallPatterns(newPatterns)` as a function of the profile it
mutates. -/
def mergePaywallPatterns (p : Profile) (n : Snapshot) : Profile where
  colors := mergeArrayStr p.colors n.colors 40
  fonts := mergeArrayStr p.fonts n.fonts 20
  fontSizes := mergeArrayNum p.fontSizes n.fontSizes 25 1
  fontWeights := mergeArrayNum p.fontWeights n.fontWeights 12 50
  lineHeights := mergeArrayNum p.lineHeights n.lineHeights 20 (mkRat 1 2)
  letterSpacing := mergeArrayNum p.letterSpacing n.letterSpacing 12 (mkRat 1 10)
  spacing := mergeArrayNum p.spacing n.spacing 30 2
  borderRadius := mergeArrayNum p.borderRadius n.borderRadius 20 2
  shadows := mergeArrayStr p.shadows n.shadows 20
  borders := mergeArrayStr p.borders n.borders 20
  transitions := mergeArrayStr p.transitions n.transitions 20
  transforms := mergeArrayStr p.transforms n.transforms 15
  opacities := mergeArrayNum p.opacities n.opacities 12 (mkRat 1 20)
  gradients := mergeArrayStr p.gradients n.gradients 15
  zIndex := mergeArrayNum p.zIndex n.zIndex 15 10
  gaps := mergeArrayNum p.gaps n.gaps 20 2
  widths := mergeArrayNum p.widths n.widths 20 10
  heights := mergeArrayNum p.heights n.heights 20 10
  displayTypes := mergeArrayStr p.displayTypes n.displayTypes 12
  flexProperties := mergeArrayStr p.flexProperties n.flexProperties 20
  gridProperties := mergeArrayStr p.gridProperties n.gridProperties 15
  positions := mergeArrayStr p.positions n.positions 8
  textTransforms := mergeArrayStr p.textTransforms n.textTransforms 6
  textDecorations := mergeArrayStr p.textDecorations n.textDecorations 8
  breakpoints := mergeArrayNum p.breakpoints n.breakpoints 15 20
  animations := mergeArrayStr p.animations n.animations 15
  layouts := pushLayouts p.layouts n.layouts
  commonStyles := mergeCommon p.commonStyles n.commonStyles
  componentStyles := mergeComponentStyles p.componentStyles n.componentStyles
  count := p.count + 1

/-- The freshly initialized profile: both the module-level initializer of
`paywallPatterns` and the object the DELETE reset handler installs. -/
def freshProfile : Profile where
  colors := []
  fonts := []
  fontSizes := []
  fontWeights := []
  lineHeights := []
  letterSpacing := []
  spacing := []
  borderRadius := []
  shadows := []
  borders := []
  transitions := []
  transforms := []
  opacities := []
  gradients := []
  zIndex := []
  gaps := []
  widths := []
  heights := []
  displayTypes := []
  flexProperties := []
  gridProperties := []
  positions := []
  textTransforms := []
  textDecorations := []
  breakpoints := []
  animations := []
  layouts := []
  commonStyles := none
  componentStyles := []
  count := 0

/-- An all-empty snapshot value, used to build concrete test snapshots. -/
def emptySnapshot : Snapshot where
  colors := []
  fonts := []
  fontSizes := []
  fontWeights := []
  lineHeights := []
  letterSpacing := []
  spacing := []
  borderRadius := []
  shadows := []
  borders := []
  transitions := []
  transforms := []
  opacities := []
  gradients := []
  zIndex := []
  gaps := []
  widths := []
  heights := []
  displayTypes := []
  flexProperties := []
  gridProperties := []
  positions := []
  textTransforms := []
  textDecorations := []
  breakpoints := []
  animations := []
  layouts := ⟨0, 0, 0, 0, 0⟩
  commonStyles := none
  componentStyles := []

/-! ### Derived notions used by the statements -/

/-- Component → property lookup into a `componentStyles` map. -/
def lookupCompProp (m : List (Str × List (Str × List Str))) (comp prop : Str) :
    Option (List Str) :=
  match lookupKey comp m with
  | some pm => lookupKey prop pm
  | none => none

/-- Every category list bounded by the capacity `mergePaywallPatterns`
passes to `mergeArray` for it. -/
def profileWithinCaps (p : Profile) : Prop :=
  p.colors.length ≤ 40 ∧ p.fonts.length ≤ 20 ∧ p.fontSizes.length ≤ 25 ∧
  p.fontWeights.length ≤ 12 ∧ p.lineHeights.length ≤ 20 ∧
  p.letterSpacing.length ≤ 12 ∧ p.spacing.length ≤ 30 ∧
  p.borderRadius.length ≤ 20 ∧ p.shadows.length ≤ 20 ∧ p.borders.length ≤ 20 ∧
  p.transitions.length ≤ 20 ∧ p.transforms.length ≤ 15 ∧
  p.opacities.length ≤ 12 ∧ p.gradients.length ≤ 15 ∧ p.zIndex.length ≤ 15 ∧
  p.gaps.length ≤ 20 ∧ p.widths.length ≤ 20 ∧ p.heights.length ≤ 20 ∧
  p.displayTypes.length ≤ 12 ∧ p.flexProperties.length ≤ 20 ∧
  p.gridProperties.length ≤ 15 ∧ p.positions.length ≤ 8 ∧
  p.textTransforms.length ≤ 6 ∧ p.textDecorations.length ≤ 8 ∧
  p.breakpoints.length ≤ 15 ∧ p.animations.length ≤ 15

/-- All twelve numeric category lists sorted ascending. -/
def numericSorted (p : Profile) : Prop :=
  p.fontSizes.Sorted (fun a b => a ≤ b) ∧ p.fontWeights.Sorted (fun a b => a ≤ b) ∧
  p.lineHeights.Sorted (fun a b => a ≤ b) ∧ p.letterSpacing.Sorted (fun a b => a ≤ b) ∧
  p.spacing.Sorted (fun a b => a ≤ b) ∧ p.borderRadius.Sorted (fun a b => a ≤ b) ∧
  p.opacities.Sorted (fun a b => a ≤ b) ∧ p.zIndex.Sorted (fun a b => a ≤ b) ∧
  p.gaps.Sorted (fun a b => a ≤ b) ∧ p.widths.Sorted (fun a b => a ≤ b) ∧
  p.heights.Sorted (fun a b => a ≤ b) ∧ p.breakpoints.Sorted (fun a b => a ≤ b)

/-! ### Concrete documents, snapshots and profiles for the tests -/

/-- A document that is a single style tag with the given CSS text. -/
def mkStyleDoc (css : Str) : Doc := Doc.mk [Elem.mk litStyleTag [] none css]

/-- `div{width: 50%;height: 100vh}` (braces written as x7b/x7d). -/
def pctCss : Str := "div\x7bwidth: 50%;height: 100vh\x7d".toList

/-- Document carrying only a percentage width and a viewport height. -/
def pctDoc : Doc := mkStyleDoc pctCss

/-- `p{font-weight: bolder}`. -/
def bolderCss : Str := "p\x7bfont-weight: bolder\x7d".toList

/-- Document whose only font-weight declaration is `bolder`. -/
def bolderDoc : Doc := mkStyleDoc bolderCss

/-- `p{font-weight: lighter}`. -/
def lighterCss : Str := "p\x7bfont-weight: lighter\x7d".toList

/-- Document whose only font-weight declaration is `lighter`. -/
def lighterDoc : Doc := mkStyleDoc lighterCss

/-- `p{font-weight: 300} i{font-weight: normal} b{font-weight: bold}`. -/
def fwMixCss : Str :=
  "p\x7bfont-weight: 300\x7d i\x7bfont-weight: normal\x7d b\x7bfont-weight: bold\x7d".toList

/-- Document with numeric, `normal` and `bold` font weights. -/
def fwMixDoc : Doc := mkStyleDoc fwMixCss

/-- A document holding one button element and no styling at all. -/
def btnElemDoc : Doc := Doc.mk [Elem.mk litButton [] none []]

/-- A rule block whose selector text is the exact button selector literal. -/
def btnRuleCss : Str := btnSelLit ++ "\x7bbackground: blue\x7d".toList

/-- Document whose FIRST style tag carries the button rule block. -/
def compFirstDoc : Doc := mkStyleDoc btnRuleCss

/-- `p{color:red}`. -/
def plainCss : Str := "p\x7bcolor:red\x7d".toList

/-- Document whose SECOND style tag carries the button rule block. -/
def compSecondDoc : Doc :=
  Doc.mk [Elem.mk litStyleTag [] none plainCss, Elem.mk litStyleTag [] none btnRuleCss]

/-- An extra style element to append to documents. -/
def extraStyleElem : Elem := Elem.mk litStyleTag [] none plainCss

/-- Six-zero-padded decimal numeral (its digits are valid hex digits). -/
def pad6 (n : Nat) : Str :=
  let s := Nat.toDigits 10 n
  List.replicate (6 - s.length) '0' ++ s

/-- The n-th of a family of pairwise distinct hex colour tokens. -/
def hexColor (n : Nat) : Str := '#' :: pad6 n

/-- CSS text holding 41 distinct hex colours. -/
def bigColorsCss : Str := ((List.range 41).map (fun i => hexColor i ++ [' '])).flatten

/-- Document with 41 distinct colours. -/
def bigColorsDoc : Doc := mkStyleDoc bigColorsCss

/-- Forty distinct stored colours. -/
def colors40 : List Str := (List.range 40).map hexColor

/-- A profile already holding 40 distinct colours. -/
def profile40 : Profile := { freshProfile with colors := colors40 }

/-- A snapshot whose only content is the spacing value 0. -/
def sZero : Snapshot := { emptySnapshot with spacing := [0] }

/-- Sixty snapshots, each contributing one fresh distinct colour. -/
def colorSnaps : List Snapshot :=
  (List.range 60).map (fun i => { emptySnapshot with colors := [hexColor i] })

/-- The word red. -/
def litRed : Str := "red".toList

/-- The word blue. -/
def litBlue : Str := "blue".toList

/-- A profile that has already stored `buttons.color = ["red"]`. -/
def profRed : Profile :=
  { freshProfile with componentStyles := [(litButtons, [(litColor, [litRed])])] }

/-- A snapshot carrying `buttons.color = ["blue"]`. -/
def snapBlue : Snapshot :=
  { emptySnapshot with componentStyles := [(litButtons, [(litColor, [litBlue])])] }

/-! ### Bridge lemmas for the kernel-evaluable arithmetic -/

/-- `subQ` is subtraction. -/
theorem subQ_eq (a b : ℚ) : subQ a b = a - b := by
  have ha : ((a.den : ℚ)) ≠ 0 := Nat.cast_ne_zero.mpr a.den_ne_zero
  have hb : ((b.den : ℚ)) ≠ 0 := Nat.cast_ne_zero.mpr b.den_ne_zero
  have hnum : ∀ q : ℚ, ((q.num : ℚ)) = q * (q.den : ℚ) := by
    intro q
    have hd : ((q.den : ℚ)) ≠ 0 := Nat.cast_ne_zero.mpr q.den_ne_zero
    exact (div_eq_iff hd).mp (Rat.num_div_den q)
  unfold subQ
  rw [Rat.divInt_eq_div]
  push_cast
  field_simp
  rw [hnum a, hnum b]
  ring

/-- The tolerance test is the closeness predicate of the source. -/
theorem withinTol_iff (e item tol : ℚ) : withinTol e item tol = true ↔ |e - item| < tol := by
  simp [withinTol, subQ_eq]

/-! ### Basic lemmas about the merge helpers -/

/-- The numeric merge result never exceeds the limit. -/
theorem length_mergeArrayNum_le (t s : List ℚ) (lim : Nat) (tol : ℚ) :
    (mergeArrayNum t s lim tol).length ≤ lim := by
  unfold mergeArrayNum
  cases h : pushAllTol t s tol with
  | nil => simp
  | cons a l => exact List.length_take_le lim (sortQ (a :: l))

/-- The string merge result never exceeds the limit. -/
theorem length_mergeArrayStr_le (t s : List Str) (lim : Nat) :
    (mergeArrayStr t s lim).length ≤ lim :=
  List.length_take_le _ _

/-- Every category of a merged profile respects its capacity. -/
theorem merge_withinCaps (p : Profile) (n : Snapshot) :
    profileWithinCaps (mergePaywallPatterns p n) :=
  ⟨length_mergeArrayStr_le _ _ _, length_mergeArrayStr_le _ _ _,
    length_mergeArrayNum_le _ _ _ _, length_mergeArrayNum_le _ _ _ _,
    length_mergeArrayNum_le _ _ _ _, length_mergeArrayNum_le _ _ _ _,
    length_mergeArrayNum_le _ _ _ _, length_mergeArrayNum_le _ _ _ _,
    length_mergeArrayStr_le _ _ _, length_mergeArrayStr_le _ _ _,
    length_mergeArrayStr_le _ _ _, length_mergeArrayStr_le _ _ _,
    length_mergeArrayNum_le _ _ _ _, length_mergeArrayStr_le _ _ _,
    length_mergeArrayNum_le _ _ _ _, length_mergeArrayNum_le _ _ _ _,
    length_mergeArrayNum_le _ _ _ _, length_mergeArrayNum_le _ _ _ _,
    length_mergeArrayStr_le _ _ _, length_mergeArrayStr_le _ _ _,
    length_mergeArrayStr_le _ _ _, length_mergeArrayStr_le _ _ _,
    length_mergeArrayStr_le _ _ _, length_mergeArrayStr_le _ _ _,
    length_mergeArrayNum_le _ _ _ _, length_mergeArrayStr_le _ _ _⟩

/-- Folding merges preserves the capacity bounds. -/
theorem withinCaps_foldl (snaps : List Snapshot) :
    ∀ p : Profile, profileWithinCaps p →
      profileWithinCaps (snaps.foldl mergePaywallPatterns p) := by
  induction snaps with
  | nil => intro p h; simp only [List.foldl_nil]; exact h
  | cons s rest ih => intro p _; exact ih _ (merge_withinCaps p s)

/-- The fresh profile trivially respects every capacity. -/
theorem fresh_withinCaps : profileWithinCaps freshProfile := by
  exact ⟨Nat.zero_le _, Nat.zero_le _, Nat.zero_le _, Nat.zero_le _, Nat.zero_le _,
    Nat.zero_le _, Nat.zero_le _, Nat.zero_le _, Nat.zero_le _, Nat.zero_le _,
    Nat.zero_le _, Nat.zero_le _, Nat.zero_le _, Nat.zero_le _, Nat.zero_le _,
    Nat.zero_le _, Nat.zero_le _, Nat.zero_le _, Nat.zero_le _, Nat.zero_le _,
    Nat.zero_le _, Nat.zero_le _, Nat.zero_le _, Nat.zero_le _, Nat.zero_le _,
    Nat.zero_le _⟩

/-- The insertion sort used to model the JS numeric sort is sorted. -/
theorem sortQ_sorted (l : List ℚ) : (sortQ l).Sorted (fun a b => a ≤ b) :=
  List.sorted_insertionSort _ l

/-- The numeric merge result is sorted ascending. -/
theorem sorted_mergeArrayNum (t s : List ℚ) (lim : Nat) (tol : ℚ) :
    (mergeArrayNum t s lim tol).Sorted (fun a b => a ≤ b) := by
  unfold mergeArrayNum
  cases h : pushAllTol t s tol with
  | nil => simp
  | cons a l => exact (sortQ_sorted (a :: l)).sublist (List.take_sublist _ _)

/-- In a sorted list, every kept element is below every dropped one. -/
theorem take_le_drop (l : List ℚ) (hl : l.Sorted (fun a b => a ≤ b)) (lim : Nat) :
    ∀ x ∈ l.take lim, ∀ y ∈ l.drop lim, x ≤ y := by
  have hp : (l.take lim ++ l.drop lim).Pairwise (fun a b => a ≤ b) := by
    rw [List.take_append_drop]
    exact hl
  exact (List.pairwise_append.mp hp).2.2

/-- Capacity eviction drops exactly the top of the sorted merged list:
every retained value is below every value the cap cut away. -/
theorem mergeArrayNum_drop_le (t s : List ℚ) (lim : Nat) (tol : ℚ) :
    ∀ x ∈ mergeArrayNum t s lim tol,
      ∀ y ∈ (sortQ (pushAllTol t s tol)).drop lim, x ≤ y := by
  intro x hx y hy
  rw [mergeArrayNum] at hx
  cases h : pushAllTol t s tol with
  | nil =>
    rw [h] at hx
    simp at hx
  | cons a l =>
    rw [h] at hx hy
    exact take_le_drop _ (sortQ_sorted _) lim x hx y hy

/-! ### Association-list lemmas for the componentStyles merge -/

/-- Looking up the upserted key yields the new value. -/
theorem lookupKey_upsert_self {β : Type} (m : List (Str × β)) (k : Str) (v : β) :
    lookupKey k (upsertList m k v) = some v := by
  induction m with
  | nil => simp [upsertList, lookupKey]
  | cons kv rest ih =>
    by_cases h : kv.1 = k
    · simp [upsertList, lookupKey, h]
    · simp [upsertList, lookupKey, h, ih]

/-- Upserting one key leaves every other key's lookup unchanged. -/
theorem lookupKey_upsert_ne {β : Type} (m : List (Str × β)) (k k' : Str) (v : β)
    (h : ¬k = k') : lookupKey k' (upsertList m k v) = lookupKey k' m := by
  have h' : ¬k' = k := fun he => h he.symm
  induction m with
  | nil => simp [upsertList, lookupKey, h, h']
  | cons kv rest ih =>
    by_cases h0 : kv.1 = k
    · simp [upsertList, lookupKey, h0, h, h']
    · by_cases h1 : kv.1 = k'
      · simp [upsertList, lookupKey, h0, h1, h']
      · simp [upsertList, lookupKey, h0, h1, ih]

/-- A key absent from the key list looks up to nothing. -/
theorem lookupKey_not_mem {β : Type} (m : List (Str × β)) (k : Str)
    (h : k ∉ m.map Prod.fst) : lookupKey k m = none := by
  induction m with
  | nil => simp [lookupKey]
  | cons kv rest ih =>
    simp only [List.map_cons, List.mem_cons] at h
    push_neg at h
    have h1 : ¬kv.1 = k := fun he => h.1 he.symm
    simp [lookupKey, h1, ih h.2]

/-- `objAssign` unfolds one source entry at a time. -/
theorem objAssign_cons {β : Type} (tgt : List (Str × β)) (kv : Str × β)
    (src : List (Str × β)) :
    objAssign tgt (kv :: src) = objAssign (upsertList tgt kv.1 kv.2) src := rfl

/-- `Object.assign` is key-by-key replacement: a key of the source wins
with its (last) source value, every other key keeps the target value. -/
theorem lookup_objAssign (P : List (Str × List Str)) :
    ∀ cur : List (Str × List Str), (P.map Prod.fst).Nodup → ∀ prop : Str,
      lookupKey prop (objAssign cur P) =
        (match lookupKey prop P with
          | some v => some v
          | none => lookupKey prop cur) := by
  induction P with
  | nil => intro cur _ prop; rfl
  | cons kv rest ih =>
    intro cur hnd prop
    obtain ⟨k0, v0⟩ := kv
    simp only [List.map_cons, List.nodup_cons] at hnd
    rw [objAssign_cons, ih _ hnd.2 prop]
    by_cases h : k0 = prop
    · subst h
      have hrest : lookupKey k0 rest = none := lookupKey_not_mem rest k0 hnd.1
      rw [hrest]
      simp [lookupKey, lookupKey_upsert_self]
    · have hhead : lookupKey prop ((k0, v0) :: rest) = lookupKey prop rest := by
        have h' : ¬k0 = prop := h
        simp [lookupKey, h']
      rw [hhead]
      cases hr : lookupKey prop rest with
      | some v => rfl
      | none => exact lookupKey_upsert_ne cur k0 prop v0 h

/-- `mergeComponentStyles` unfolds one component at a time. -/
theorem mergeComponentStyles_cons (tgt : List (Str × List (Str × List Str)))
    (kv : Str × List (Str × List Str)) (src : List (Str × List (Str × List Str))) :
    mergeComponentStyles tgt (kv :: src) =
      mergeComponentStyles
        (upsertList tgt kv.1 (objAssign ((lookupKey kv.1 tgt).getD []) kv.2)) src := rfl

/-- Per (component, property) pair, the merged map holds the snapshot's
value list when the snapshot mentions the pair, else the target's. -/
theorem lookup_mergeComponentStyles (src : List (Str × List (Str × List Str))) :
    ∀ tgt : List (Str × List (Str × List Str)),
      (src.map Prod.fst).Nodup →
      (∀ e ∈ src, (e.2.map Prod.fst).Nodup) →
      ∀ comp prop : Str,
        lookupCompProp (mergeComponentStyles tgt src) comp prop =
          (match lookupCompProp src comp prop with
            | some v => some v
            | none => lookupCompProp tgt comp prop) := by
  induction src with
  | nil => intro tgt _ _ comp prop; rfl
  | cons kv rest ih =>
    intro tgt hnd hprops comp prop
    obtain ⟨k0, P⟩ := kv
    simp only [List.map_cons, List.nodup_cons] at hnd
    rw [mergeComponentStyles_cons,
      ih _ hnd.2 (fun e he => hprops e (List.mem_cons_of_mem _ he)) comp prop]
    by_cases h : k0 = comp
    · subst h
      have hrest : lookupCompProp rest k0 prop = none := by
        simp only [lookupCompProp, lookupKey_not_mem rest k0 hnd.1]
      have hhead : lookupCompProp ((k0, P) :: rest) k0 prop = lookupKey prop P := by
        simp [lookupCompProp, lookupKey]
      rw [hrest, hhead]
      have hV := lookup_objAssign P ((lookupKey k0 tgt).getD [])
        (hprops (k0, P) (List.mem_cons_self _ _)) prop
      simp only [lookupCompProp, lookupKey_upsert_self, hV]
      cases hv : lookupKey prop P with
      | some v => rfl
      | none =>
        cases ht : lookupKey k0 tgt with
        | some pm => rfl
        | none => rfl
    · have hhead : lookupCompProp ((k0, P) :: rest) comp prop =
          lookupCompProp rest comp prop := by
        have h' : ¬k0 = comp := h
        simp [lookupCompProp, lookupKey, h']
      have htgt : lookupCompProp (upsertList tgt k0
          (objAssign ((lookupKey k0 tgt).getD []) P)) comp prop =
          lookupCompProp tgt comp prop := by
        simp only [lookupCompProp, lookupKey_upsert_ne tgt k0 comp _ h]
      rw [hhead, htgt]

/-! ### Count bookkeeping -/

/-- Each merge increments the count by exactly one. -/
theorem merge_count (p : Profile) (n : Snapshot) :
    (mergePaywallPatterns p n).count = p.count + 1 := rfl

/-- A fold of merges adds the number of snapshots to the count. -/
theorem count_foldl (snaps : List Snapshot) :
    ∀ p : Profile, (snaps.foldl mergePaywallPatterns p).count = p.count + snaps.length := by
  induction snaps with
  | nil => intro p; simp
  | cons s rest ih =>
    intro p
    simp only [List.foldl_cons, List.length_cons, ih, merge_count]
    omega

/-! ### The claims -/

/-- C1: the tolerance-dedup invariant FAILS at a stored value 0, and the
code contradicts its own `keep unique values` contract: because
`target.find(...)` returns the found element and `if (!existing)` treats
the falsy number 0 as not found, merging a snapshot whose spacing list is
`[0]` twice stores TWO zeros — two stored values within the spacing
tolerance 2 of each other (|0 - 0| = 0 < 2), where the claim demands
exactly one stored entry. -/
theorem c1_zero_dedup_bug :
    (mergePaywallPatterns (mergePaywallPatterns freshProfile sZero) sZero).spacing = [0, 0]
      ∧ |(0 : ℚ) - 0| < 2 := by
  refine ⟨by decide, by norm_num⟩

/-- C2 counterexample: a profile already storing `buttons.color = [red]`
merged with a snapshot carrying `buttons.color = [blue]` ends with
`[blue]` alone — the previously accumulated `red` is discarded, so the
stored list is NOT the union `[red, blue]` the claim demands. -/
theorem c2_component_union_ce :
    lookupCompProp (mergePaywallPatterns profRed snapBlue).componentStyles litButtons litColor
        = some [litBlue] ∧
    lookupCompProp profRed.componentStyles litButtons litColor = some [litRed] ∧
    ¬([litBlue] = [litRed, litBlue]) := by
  refine ⟨by decide, by decide, by decide⟩

/-- C2 as amended: the componentStyles merge is per-property last-writer-
wins — for every (archetype, property) pair the merged profile holds the
snapshot's value list when the snapshot mentions the pair (REPLACING the
stored one, no union), and the profile's previous list otherwise; the
cap of 5 comes from extraction, not from the merge. -/
theorem c2_component_last_writer (p : Profile) (n : Snapshot)
    (hnd : (n.componentStyles.map Prod.fst).Nodup)
    (hprops : ∀ e ∈ n.componentStyles, (e.2.map Prod.fst).Nodup)
    (comp prop : Str) :
    lookupCompProp (mergePaywallPatterns p n).componentStyles comp prop =
      (match lookupCompProp n.componentStyles comp prop with
        | some v => some v
        | none => lookupCompProp p.componentStyles comp prop) :=
  lookup_mergeComponentStyles n.componentStyles p.componentStyles hnd hprops comp prop

/-- C2 witness: the last-writer equation applied to the concrete red/blue
profile and snapshot. -/
theorem c2_component_last_writer_witness :
    lookupCompProp (mergePaywallPatterns profRed snapBlue).componentStyles litButtons litColor =
      (match lookupCompProp snapBlue.componentStyles litButtons litColor with
        | some v => some v
        | none => lookupCompProp profRed.componentStyles litButtons litColor) :=
  c2_component_last_writer profRed snapBlue (by decide) (by decide) litButtons litColor

/-- C3 counterexample: a document with 41 distinct colours (more than the
aggregate colour capacity 40) yields a snapshot whose colour list has
length 30 — the extractor's own cap — not the merge capacity 40 the
claim says is shared. -/
theorem c3_shared_caps_ce :
    (catSet capsColors (cssSourcesOf bigColorsDoc)).length = 41 ∧
    (extractPaywallPatterns bigColorsDoc).colors.length = 30 ∧
    ¬((extractPaywallPatterns bigColorsDoc).colors.length = 40) := by
  refine ⟨by decide, by decide, by decide⟩

/-- C3 as amended: the extractor truncates with its own, strictly smaller
cap table (30 for colours), while the aggregator's merge capacity for
colours is 40: every snapshot colour list is at most 30 long, the
41-colour document is cut to exactly 30, and a merge happily retains a
40-colour stored list. -/
theorem c3_separate_caps :
    (∀ d : Doc, (extractPaywallPatterns d).colors.length ≤ 30) ∧
    (extractPaywallPatterns bigColorsDoc).colors.length = 30 ∧
    (mergePaywallPatterns profile40 emptySnapshot).colors.length = 40 := by
  refine ⟨fun d => List.length_take_le _ _, by decide, by decide⟩

/-- C4: the percentage / viewport-unit exclusion never fires, because the
source tests `match[1]` — the numeric capture, which can only hold digits
— for the substrings `%` and `vw`/`vh`: the declarations `width: 50%` and
`height: 100vh` DO contribute 50 and 100 to the snapshot, contradicting
the claim (which matches the evident intent of the dead check). -/
theorem c4_pct_viewport_bug :
    (extractPaywallPatterns pctDoc).widths = [50] ∧
    (extractPaywallPatterns pctDoc).heights = [100] := by
  refine ⟨by decide, by decide⟩

/-- C5 counterexample: the exact archetype rule block that produces
`buttons.background = [blue]` when it sits in the FIRST style tag
contributes nothing when it sits in the SECOND style tag —scanning is
not over all style blocks, because `$("style").html()` returns only the
first tag's text. -/
theorem c5_any_style_block_ce :
    (extractPaywallPatterns compSecondDoc).componentStyles = [] ∧
    (extractPaywallPatterns compFirstDoc).componentStyles =
      [(litButtons, [(litBackground, [litBlue])])] := by
  refine ⟨by decide, by decide⟩

/-- C5 as amended: componentStyles depends only on the FIRST style tag's
text — appending any further elements (more style tags included) to a
document that already has a style tag never changes componentStyles. -/
theorem c5_first_style_block_only (d : Doc) (extra : List Elem)
    (h : ¬styleBlocksOf d = []) :
    (extractPaywallPatterns (Doc.mk (d.elements ++ extra))).componentStyles =
      (extractPaywallPatterns d).componentStyles := by
  have hb : styleBlocksOf (Doc.mk (d.elements ++ extra)) =
      styleBlocksOf d ++ styleBlocksOf (Doc.mk extra) := by
    simp [styleBlocksOf, List.filter_append]
  have hh : (styleBlocksOf (Doc.mk (d.elements ++ extra))).headD ([] : Str) =
      (styleBlocksOf d).headD ([] : Str) := by
    rw [hb]
    cases hd : styleBlocksOf d with
    | nil => exact absurd hd h
    | cons b bs => simp
  show extractComponentStyles ((styleBlocksOf (Doc.mk (d.elements ++ extra))).headD []) =
    extractComponentStyles ((styleBlocksOf d).headD [])
  rw [hh]

/-- C5 witness: appending a second style tag to the document whose first
style tag carries the button rule leaves componentStyles unchanged. -/
theorem c5_first_style_block_only_witness :
    (extractPaywallPatterns (Doc.mk (compFirstDoc.elements ++ [extraStyleElem]))).componentStyles =
      (extractPaywallPatterns compFirstDoc).componentStyles :=
  c5_first_style_block_only compFirstDoc [extraStyleElem] (by decide)

/-- C6: capacity invariant CONFIRMED — after any sequence of merges from
the fresh profile every category list is bounded by its merge capacity,
and sixty single-new-colour documents leave exactly 40 stored colours
(capacity 40). -/
theorem c6_capacity_invariant :
    (∀ snaps : List Snapshot,
      profileWithinCaps (snaps.foldl mergePaywallPatterns freshProfile)) ∧
    (colorSnaps.foldl mergePaywallPatterns freshProfile).colors.length = 40 := by
  refine ⟨fun snaps => withinCaps_foldl snaps freshProfile fresh_withinCaps, by decide⟩

/-- C7: order invariant CONFIRMED — every numeric category list of a
merged profile is sorted ascending, and capacity eviction removes
exactly the top of the sorted merged list: every retained value is less
than or equal to every dropped value. -/
theorem c7_sorted_and_drop_highest :
    (∀ (p : Profile) (n : Snapshot), numericSorted (mergePaywallPatterns p n)) ∧
    (∀ (t s : List ℚ) (lim : Nat) (tol : ℚ),
      ∀ x ∈ mergeArrayNum t s lim tol,
        ∀ y ∈ (sortQ (pushAllTol t s tol)).drop lim, x ≤ y) := by
  constructor
  · intro p n
    exact ⟨sorted_mergeArrayNum _ _ _ _, sorted_mergeArrayNum _ _ _ _,
      sorted_mergeArrayNum _ _ _ _, sorted_mergeArrayNum _ _ _ _,
      sorted_mergeArrayNum _ _ _ _, sorted_mergeArrayNum _ _ _ _,
      sorted_mergeArrayNum _ _ _ _, sorted_mergeArrayNum _ _ _ _,
      sorted_mergeArrayNum _ _ _ _, sorted_mergeArrayNum _ _ _ _,
      sorted_mergeArrayNum _ _ _ _, sorted_mergeArrayNum _ _ _ _⟩
  · exact mergeArrayNum_drop_le

/-- C7 witness: merging the spacing-like list `[3, 1]` with `[2]` under
tolerance 1 and capacity 1 keeps `[1]` and drops `[2, 3]`; the kept 1 is
below the dropped 3. -/
theorem c7_sorted_and_drop_highest_witness : (1 : ℚ) ≤ 3 :=
  c7_sorted_and_drop_highest.2 [3, 1] [2] 1 1 1 (by decide) 3 (by decide)

/-- C8: count and reset CONFIRMED — each merge call increments the count
by exactly one, N merges from the fresh (reset) profile leave count N,
and the reset profile has count 0 with every category list, the layouts
history and the style maps empty. -/
theorem c8_count_and_reset :
    (∀ (p : Profile) (n : Snapshot), (mergePaywallPatterns p n).count = p.count + 1) ∧
    (∀ snaps : List Snapshot,
      (snaps.foldl mergePaywallPatterns freshProfile).count = snaps.length) ∧
    freshProfile.count = 0 ∧
    freshProfile.colors = [] ∧ freshProfile.fonts = [] ∧
    freshProfile.fontSizes = [] ∧ freshProfile.fontWeights = [] ∧
    freshProfile.lineHeights = [] ∧ freshProfile.letterSpacing = [] ∧
    freshProfile.spacing = [] ∧ freshProfile.borderRadius = [] ∧
    freshProfile.shadows = [] ∧ freshProfile.borders = [] ∧
    freshProfile.transitions = [] ∧ freshProfile.transforms = [] ∧
    freshProfile.opacities = [] ∧ freshProfile.gradients = [] ∧
    freshProfile.zIndex = [] ∧ freshProfile.gaps = [] ∧
    freshProfile.widths = [] ∧ freshProfile.heights = [] ∧
    freshProfile.displayTypes = [] ∧ freshProfile.flexProperties = [] ∧
    freshProfile.gridProperties = [] ∧ freshProfile.positions = [] ∧
    freshProfile.textTransforms = [] ∧ freshProfile.textDecorations = [] ∧
    freshProfile.breakpoints = [] ∧ freshProfile.animations = [] ∧
    freshProfile.layouts = [] ∧ freshProfile.commonStyles = none ∧
    freshProfile.componentStyles = [] := by
  refine ⟨merge_count, ?_, rfl, rfl, rfl, rfl, rfl, rfl, rfl, rfl, rfl, rfl, rfl,
    rfl, rfl, rfl, rfl, rfl, rfl, rfl, rfl, rfl, rfl, rfl, rfl, rfl, rfl, rfl,
    rfl, rfl, rfl, rfl⟩
  intro snaps
  rw [count_foldl snaps freshProfile]
  exact Nat.zero_add _

/-- C9 counterexample: a document holding one button element, zero style
tags and zero inline style attributes satisfies the claim's hypothesis,
yet its snapshot's layouts.buttons count is 1, not 0 — the layout counts
count ELEMENTS matched by the heuristic selectors, not styles. -/
theorem c9_layout_counts_ce :
    styleBlocksOf btnElemDoc = [] ∧ inlineStylesOf btnElemDoc = [] ∧
    (extractPaywallPatterns btnElemDoc).layouts.buttons = 1 := by
  refine ⟨by decide, by decide, by decide⟩

/-- C9 as amended: a document with no style tags and no inline style
attributes extracts to the all-empty snapshot EXCEPT that the layouts
record still holds the document's element counts for the five heuristic
selector groups (which are zero only when no element matches). -/
theorem c9_no_styles_empty (d : Doc) (h1 : styleBlocksOf d = [])
    (h2 : inlineStylesOf d = []) :
    extractPaywallPatterns d = { emptySnapshot with layouts := layoutCountsOf d } := by
  have hs : cssSourcesOf d = [] := by rw [cssSourcesOf, h1, h2]; rfl
  unfold extractPaywallPatterns
  rw [hs, h1]
  rfl

/-- C9 witness: the amended statement at the styleless button document. -/
theorem c9_no_styles_empty_witness :
    extractPaywallPatterns btnElemDoc =
      { emptySnapshot with layouts := layoutCountsOf btnElemDoc } :=
  c9_no_styles_empty btnElemDoc (by decide) (by decide)

/-- C10 counterexample: a document whose only font-weight declaration is
`bolder` yields fontWeights `[700]`, not the empty list the claim
demands — the ordered alternation `(\d+|normal|bold|bolder|lighter)`
matches the prefix `bold` inside `bolder` and canonicalizes it to 700. -/
theorem c10_bolder_ce :
    (extractPaywallPatterns bolderDoc).fontWeights = [700] ∧
    ¬((extractPaywallPatterns bolderDoc).fontWeights = []) := by
  refine ⟨by decide, by decide⟩

/-- C10 as amended: `lighter` is matched but never inserted; `bolder` is
matched as the alternative `bold` and inserts 700; numeric weights are
inserted verbatim and `normal`/`bold` canonicalize to 400/700. -/
theorem c10_font_weight_keywords :
    (extractPaywallPatterns lighterDoc).fontWeights = [] ∧
    (extractPaywallPatterns bolderDoc).fontWeights = [700] ∧
    (extractPaywallPatterns fwMixDoc).fontWeights = [300, 400, 700] := by
  refine ⟨by decide, by decide, by decide⟩

end Paywall
